import Mathlib

/-!
Shallow embedding of the task-api service (src/app/models.py, src/app/routes.py).

Timestamps are opaque integers (the time provider `datetime_now` supplies a
value `now`).  Strings are Lean `String`s; SQL `lower` is modelled by mapping
`Char.toLower` over the characters.

A `Task` row mirrors the runtime Python object: the `title` and
`created_at` attributes are `Option`-valued because `sqlmodel_update` performs
plain attribute assignment with no re-validation, so a PATCH carrying an
explicit null can place `None` into them in memory even though the declared
model types are non-optional.  Persistence is another matter: those
declarations (`title : str`, `created_at : datetime`, no Optional) make the
generated columns NOT NULL (database.py creates the table from this
metadata), so a commit that flushes a null there raises IntegrityError and
persists nothing; `Task.nullOk` captures that constraint and the PATCH
handler's commit is guarded by it.  Creation always fills both fields with
`some` values.

Request bodies are modelled in two layers, mirroring pydantic validation:
a raw payload in which every field is `Option (Option α)` (outer layer:
present in the JSON body or not; inner layer: JSON null or a value), and a
validated model carrying the field values together with the pydantic
`model_fields_set` flags (one `…Set : Bool` per field) that
`model_dump(exclude_unset=True)` consults.
-/

namespace TaskApi

abbrev Timestamp := Int

/-- A persisted `Task` row / the runtime ORM object (models.py, class Task). -/
structure Task where
  id : Nat
  title : Option String
  description : Option String
  completed : Bool
  created_at : Option Timestamp
deriving Repr, DecidableEq

/-- The payload of a fastapi `HTTPException`. -/
structure HTTPError where
  status_code : Nat
  detail : String
deriving Repr, DecidableEq

def taskNotFound : HTTPError := ⟨404, "Task not found"⟩

/-- The NOT NULL column constraints of the task table (models.py): `title`
and `created_at` are declared without Optional, so their columns reject
null; `description` is nullable and `completed` is a non-null Bool by
construction.  A flush of a row violating this raises IntegrityError. -/
def Task.nullOk (t : Task) : Bool := t.title.isSome && t.created_at.isSome

/-- The observable outcome of a request whose handler can hit a storage
fault at commit: the returned task, an `HTTPException`, or an
IntegrityError escaping the handler unhandled (a 500-class fault; the spec
notes such a failure "propagates as an unhandled fault to the transport
layer"). -/
inductive RequestOutcome where
  | ok : Task → RequestOutcome
  | httpError : HTTPError → RequestOutcome
  | integrityError : RequestOutcome
deriving Repr, DecidableEq

/-- A raw JSON body for `TaskCreate` (models.py, `class TaskCreate(BaseTask)`):
each field is absent (`none`), JSON null (`some none`), or a value
(`some (some v)`). -/
structure TaskCreateRaw where
  title : Option (Option String)
  description : Option (Option String)
  completed : Option (Option Bool)
  created_at : Option (Option Timestamp)
deriving Repr, DecidableEq

/-- A validated `TaskCreate` model instance (inherits every `BaseTask` field,
`created_at` included), together with its `model_fields_set` flags. -/
structure TaskCreate where
  title : String
  description : Option String
  completed : Bool
  created_at : Timestamp
  titleSet : Bool
  descriptionSet : Bool
  completedSet : Bool
  createdAtSet : Bool
deriving Repr, DecidableEq

/-- Pydantic validation of a `TaskCreate` body (field declarations of
`BaseTask` in models.py): `title : str`, `max_length=120`, required, not
nullable; `description : Optional[str]`, `max_length=255`, default `None`;
`completed : bool`, default `False`, not nullable; `created_at : datetime`,
`default_factory=datetime_now`, not nullable.  `now` is the value the
default factory would produce. -/
def TaskCreate.validate (now : Timestamp) (raw : TaskCreateRaw) :
    Option TaskCreate := do
  let t ← match raw.title with
          | some (some s) => if s.length ≤ 120 then some s else none
          | _ => none
  let d ← match raw.description with
          | none => some none
          | some none => some none
          | some (some s) => if s.length ≤ 255 then some (some s) else none
  let c ← match raw.completed with
          | none => some false
          | some none => none
          | some (some b) => some b
  let ca ← match raw.created_at with
          | none => some now
          | some none => none
          | some (some x) => some x
  some { title := t, description := d, completed := c, created_at := ca,
         titleSet := raw.title.isSome, descriptionSet := raw.description.isSome,
         completedSet := raw.completed.isSome,
         createdAtSet := raw.created_at.isSome }

/-- A raw JSON body for `TaskPatch` (models.py, `class TaskPatch`). -/
structure TaskPatchRaw where
  title : Option (Option String)
  description : Option (Option String)
  completed : Option (Option Bool)
  created_at : Option (Option Timestamp)
deriving Repr, DecidableEq

/-- A validated `TaskPatch` model instance with its `model_fields_set` flags.
Field declarations (models.py): `title : Optional[str]` default `None`;
`description : Optional[str]` default `None`; `completed : bool` default
`False` (NOT optional/nullable); `created_at : Optional[datetime]` default
`None`. -/
structure TaskPatch where
  title : Option String
  description : Option String
  completed : Bool
  created_at : Option Timestamp
  titleSet : Bool
  descriptionSet : Bool
  completedSet : Bool
  createdAtSet : Bool
deriving Repr, DecidableEq

/-- Pydantic validation of a `TaskPatch` body.  `title`/`description` accept
an explicit null (they are `Optional`), `completed` does not (`bool`),
`created_at` accepts null (`Optional[datetime]`, no range constraint). -/
def TaskPatch.validate (raw : TaskPatchRaw) : Option TaskPatch := do
  let t ← match raw.title with
          | none => some none
          | some none => some none
          | some (some s) => if s.length ≤ 120 then some (some s) else none
  let d ← match raw.description with
          | none => some none
          | some none => some none
          | some (some s) => if s.length ≤ 255 then some (some s) else none
  let c ← match raw.completed with
          | none => some false
          | some none => none
          | some (some b) => some b
  let ca ← match raw.created_at with
          | none => some none
          | some none => some none
          | some (some x) => some (some x)
  some { title := t, description := d, completed := c, created_at := ca,
         titleSet := raw.title.isSome, descriptionSet := raw.description.isSome,
         completedSet := raw.completed.isSome,
         createdAtSet := raw.created_at.isSome }

/-- `task_db.sqlmodel_update(task_body.model_dump(exclude_unset=True))` for a
`TaskCreate` body (routes.py, `update_task`): only fields present in the
request (`…Set`) are assigned onto the row; the rest keep their values.
No field `id` exists on `TaskCreate`, so `id` is untouched. -/
def Task.applyCreate (t : Task) (p : TaskCreate) : Task :=
  { t with
    title := if p.titleSet then some p.title else t.title
    description := if p.descriptionSet then p.description else t.description
    completed := if p.completedSet then p.completed else t.completed
    created_at := if p.createdAtSet then some p.created_at else t.created_at }

/-- `task_db.sqlmodel_update(task_body.model_dump(exclude_unset=True))` for a
`TaskPatch` body (routes.py, `patch_task`).  An explicitly-null field is
present in the dump, so e.g. `titleSet = true` with `title = none` assigns
`None` to the row's title attribute — no re-validation happens here. -/
def Task.applyPatch (t : Task) (p : TaskPatch) : Task :=
  { t with
    title := if p.titleSet then p.title else t.title
    description := if p.descriptionSet then p.description else t.description
    completed := if p.completedSet then p.completed else t.completed
    created_at := if p.createdAtSet then p.created_at else t.created_at }

/-- The database reached through the session: the stored rows (in storage
order) and the next primary-key value the storage layer will assign. -/
structure Db where
  rows : List Task
  nextId : Nat
deriving Repr, DecidableEq

/-- `db_session.get(Task, task_id)`: primary-key lookup. -/
def Db.get (db : Db) (i : Nat) : Option Task :=
  db.rows.find? (fun r => r.id == i)

/-- The store after a successful flush of a mutated row: every stored row
with the same primary key is replaced by the new value (the primary key is
unique, so at most one is).  This is only the success image of a commit —
whether the flush succeeds at all is governed by `Task.nullOk` at the call
site. -/
def Db.setRow (db : Db) (t : Task) : Db :=
  { db with rows := db.rows.map (fun r => if r.id == t.id then t else r) }

/-- All stored primary keys are below the next one the store will assign. -/
def Db.Wf (db : Db) : Prop := ∀ t ∈ db.rows, t.id < db.nextId

instance (db : Db) : Decidable db.Wf := by
  unfold Db.Wf; infer_instance

/-- SQL `LIKE` pattern matching over characters: `%` matches any sequence
(including the empty one) — the remaining pattern may consume any suffix of
the string — `_` matches exactly one character, every other pattern character
matches itself; the pattern must cover the whole string. -/
def likeMatch : List Char → List Char → Bool
  | [], s => s.isEmpty
  | p :: ps, s =>
    if p = '%' then s.tails.any (fun s2 => likeMatch ps s2)
    else match s with
      | [] => false
      | c :: cs => (p = '_' || p = c) && likeMatch ps cs

/-- `lower(s)` as a character list. -/
def lowerStr (s : String) : List Char := s.toList.map Char.toLower

/-- `col(Task.title).ilike(f"%{title}%")` on one row: compiled by the ORM as
`lower(title) LIKE lower('%' || title || '%')`; a NULL column never matches. -/
def ilike (t : Option String) (filterStr : String) : Bool :=
  match t with
  | none => false
  | some s => likeMatch ('%' :: (lowerStr filterStr ++ ['%'])) (lowerStr s)

/-- The result set of the SELECT built in `list_tasks` (routes.py): although
the handler chains `.offset(offset).limit(limit)` before `.where(...)`, the
statement compiles to `SELECT … WHERE … LIMIT limit OFFSET offset`, whose SQL
semantics applies the filter to the whole table, then skips `offset` rows,
then caps the count at `limit`.  An empty `title` adds no WHERE clause. -/
def list_query (db : Db) (offset limit : Nat) (title : String) : List Task :=
  let filtered := if title = "" then db.rows
                  else db.rows.filter (fun t => ilike t.title title)
  (filtered.drop offset).take limit

/-- Handler `GET /task/` (routes.py, `list_tasks`): raises 404 "The tasks
list is empty." when the result set is empty, otherwise returns the rows. -/
def list_tasks (db : Db) (offset limit : Nat) (title : String) :
    Except HTTPError (List Task) :=
  let l := list_query db offset limit title
  if l.isEmpty then .error ⟨404, "The tasks list is empty."⟩ else .ok l

/-- Handler `GET /task/{task_id}` (routes.py, `task_details`). -/
def task_details (db : Db) (task_id : Nat) : Except HTTPError Task :=
  match db.get task_id with
  | none => .error taskNotFound
  | some t => .ok t

/-- Handler `POST /task/` (routes.py, `create_task`):
`Task.model_validate(task_body)` copies every `BaseTask` field of the
validated body (`created_at` included) into a new row with `id = None`;
add + commit + refresh returns the row with the storage-assigned id. -/
def create_task (db : Db) (p : TaskCreate) : Task × Db :=
  let t : Task := { id := db.nextId, title := some p.title,
                    description := p.description, completed := p.completed,
                    created_at := some p.created_at }
  (t, { rows := db.rows ++ [t], nextId := db.nextId + 1 })

/-- Handler `PUT /task/{task_id}` (routes.py, `update_task`): 404 when the id
is absent (session untouched); otherwise merges the exclude-unset dump of the
`TaskCreate` body onto the row and commits.  Unlike PATCH, this commit can
never violate the NOT NULL columns: the merge writes `some`-values or keeps
the stored ones (`applyCreate_nullOk`), so only the success path of the
commit is reachable and it is modelled directly. -/
def update_task (db : Db) (task_id : Nat) (p : TaskCreate) :
    Except HTTPError Task × Db :=
  match db.get task_id with
  | none => (.error taskNotFound, db)
  | some t => let t2 := t.applyCreate p; (.ok t2, db.setRow t2)

/-- Handler `PATCH /task/{task_id}` (routes.py, `patch_task`): 404 when the
id is absent (session untouched); otherwise merges the exclude-unset dump of
the `TaskPatch` body onto the row and commits.  When the merged row carries
a null in a NOT NULL column (reachable: `TaskPatch.title` accepts an
explicit null that the merge assigns onto the row), the commit's UPDATE is
rejected with IntegrityError, the error escapes the handler unhandled, and
the rolled-back transaction persists nothing. -/
def patch_task (db : Db) (task_id : Nat) (p : TaskPatch) :
    RequestOutcome × Db :=
  match db.get task_id with
  | none => (.httpError taskNotFound, db)
  | some t =>
    let t2 := t.applyPatch p
    if t2.nullOk then (.ok t2, db.setRow t2) else (.integrityError, db)

/-- Handler `DELETE /task/{task_id}` (routes.py, `delete_task`): 404 when the
id is absent (session untouched); otherwise deletes the row, commits, and
acknowledges with `{"ok": True}` under a 204 status. -/
def delete_task (db : Db) (task_id : Nat) : Except HTTPError Bool × Db :=
  match db.get task_id with
  | none => (.error taskNotFound, db)
  | some _ =>
    (.ok true, { db with rows := db.rows.filter (fun r => r.id != task_id) })

/-- Modelled from the spec: "case-insensitive substring match on `title`" —
the spec-side reading of the list filter, for comparison with `ilike`. -/
def hasPrefixCh : List Char → List Char → Bool
  | [], _ => true
  | _ :: _, [] => false
  | a :: as, b :: bs => a == b && hasPrefixCh as bs

/-- Modelled from the spec: substring containment over characters. -/
def hasSubstrCh (needle : List Char) : List Char → Bool
  | [] => needle.isEmpty
  | c :: cs => hasPrefixCh needle (c :: cs) || hasSubstrCh needle cs

/-- Modelled from the spec: `needle` occurs in `hay` case-insensitively. -/
def ciSubstr (needle hay : String) : Bool :=
  hasSubstrCh (lowerStr needle) (lowerStr hay)

/-- The character list contains no SQL LIKE wildcard. -/
def noWild (cs : List Char) : Bool := cs.all (fun c => !(c == '%') && !(c == '_'))

/-- The title field of a raw patch body satisfies its length bound (vacuously
when absent or null). -/
def titleOkP (raw : TaskPatchRaw) : Bool :=
  match raw.title with
  | some (some s) => s.length ≤ 120
  | _ => true

/-- The description field of a raw patch body satisfies its length bound. -/
def descOkP (raw : TaskPatchRaw) : Bool :=
  match raw.description with
  | some (some s) => s.length ≤ 255
  | _ => true

/-! ### Helper lemmas about the session/store -/

theorem Db.get_id {db : Db} {i : Nat} {t : Task} (h : db.get i = some t) :
    t.id = i := by
  have hfound := List.find?_some h
  simp at hfound
  exact hfound

theorem find?_map_replace {rows : List Task} {i : Nat} {t t2 : Task}
    (h : rows.find? (fun r => r.id == i) = some t) (h2 : t2.id = i) :
    (rows.map (fun r => if r.id == t2.id then t2 else r)).find?
      (fun r => r.id == i) = some t2 := by
  induction rows with
  | nil => simp at h
  | cons r rs ih =>
    by_cases hr : r.id = i
    · simp only [List.map_cons]
      rw [if_pos (by simp [hr, h2])]
      exact List.find?_cons_of_pos _ (by simp [h2])
    · rw [List.find?_cons_of_neg _ (by simp [hr])] at h
      simp only [List.map_cons]
      rw [if_neg (by simp [h2, hr])]
      rw [List.find?_cons_of_neg _ (by simp [hr])]
      exact ih h

theorem Db.get_setRow {db : Db} {i : Nat} {t t2 : Task}
    (h : db.get i = some t) (h2 : t2.id = t.id) :
    (db.setRow t2).get i = some t2 := by
  have hid : t.id = i := Db.get_id h
  exact find?_map_replace h (by rw [h2, hid])

theorem find?_filter_ne_self (rows : List Task) (i : Nat) :
    (rows.filter (fun r => r.id != i)).find? (fun r => r.id == i) = none := by
  induction rows with
  | nil => rfl
  | cons r rs ih =>
    by_cases hr : r.id = i
    · rw [List.filter_cons, if_neg (by simp [hr])]
      exact ih
    · rw [List.filter_cons, if_pos (by simp [hr])]
      rw [List.find?_cons_of_neg _ (by simp [hr])]
      exact ih

theorem find?_filter_ne_other (rows : List Task) (i j : Nat) (hij : j ≠ i) :
    (rows.filter (fun r => r.id != i)).find? (fun r => r.id == j)
      = rows.find? (fun r => r.id == j) := by
  induction rows with
  | nil => rfl
  | cons r rs ih =>
    by_cases hr : r.id = i
    · rw [List.filter_cons, if_neg (by simp [hr])]
      rw [List.find?_cons_of_neg _ (by simp [hr, Ne.symm hij])]
      exact ih
    · rw [List.filter_cons, if_pos (by simp [hr])]
      by_cases hj : r.id = j
      · rw [List.find?_cons_of_pos _ (by simp [hj]),
          List.find?_cons_of_pos _ (by simp [hj])]
      · rw [List.find?_cons_of_neg _ (by simp [hj]),
          List.find?_cons_of_neg _ (by simp [hj])]
        exact ih

theorem find?_append_last (rows : List Task) (t : Task)
    (h : ∀ r ∈ rows, r.id ≠ t.id) :
    (rows ++ [t]).find? (fun r => r.id == t.id) = some t := by
  induction rows with
  | nil => simp [List.find?]
  | cons r rs ih =>
    rw [List.cons_append,
      List.find?_cons_of_neg _ (by simp [h r (by simp)])]
    exact ih (fun r' hr' => h r' (by simp [hr']))

/-- A PUT merge never writes a null into a NOT NULL column: each field of
the merged row is either the payload's (non-null) value or the stored
row's, so on a row satisfying the constraints the commit in `update_task`
cannot raise IntegrityError. -/
theorem applyCreate_nullOk (t : Task) (p : TaskCreate)
    (h : t.nullOk = true) : (t.applyCreate p).nullOk = true := by
  simp [Task.nullOk] at h
  simp [Task.nullOk, Task.applyCreate]
  constructor
  · cases hp : p.titleSet <;> simp [hp, h.1]
  · cases hp : p.createdAtSet <;> simp [hp, h.2]

/-- Every stored row satisfies the NOT NULL constraints.  This holds of
every reachable store: it holds initially and is preserved by every
handler (creation fills the columns, PUT merges only non-null values onto
them, and a PATCH whose merged row violates them does not commit). -/
def Db.RowsOk (db : Db) : Prop := ∀ t ∈ db.rows, t.nullOk = true

theorem RowsOk_setRow {db : Db} (h : db.RowsOk) {t2 : Task}
    (h2 : t2.nullOk = true) : (db.setRow t2).RowsOk := by
  intro r hr
  rw [Db.setRow, List.mem_map] at hr
  obtain ⟨r0, hr0, hre⟩ := hr
  subst hre
  by_cases hid : r0.id = t2.id
  · simp [hid, h2]
  · simp only [hid, beq_iff_eq, if_false]
    exact h r0 hr0

theorem RowsOk_create {db : Db} (h : db.RowsOk) (p : TaskCreate) :
    ((create_task db p).2).RowsOk := by
  intro t ht
  simp [create_task] at ht
  rcases ht with ht | ht
  · exact h t ht
  · subst ht
    rfl

theorem RowsOk_update {db : Db} (h : db.RowsOk) (i : Nat) (p : TaskCreate) :
    ((update_task db i p).2).RowsOk := by
  unfold update_task
  cases hg : db.get i with
  | none => exact h
  | some t =>
    exact RowsOk_setRow h
      (applyCreate_nullOk t p (h t (List.mem_of_find?_eq_some hg)))

theorem RowsOk_patch {db : Db} (h : db.RowsOk) (i : Nat) (q : TaskPatch) :
    ((patch_task db i q).2).RowsOk := by
  unfold patch_task
  cases hg : db.get i with
  | none => exact h
  | some t =>
    by_cases hok : (t.applyPatch q).nullOk = true
    · simp only [hok, if_true]
      exact RowsOk_setRow h hok
    · simp only [hok, if_false]
      exact h

theorem RowsOk_delete {db : Db} (h : db.RowsOk) (i : Nat) :
    ((delete_task db i).2).RowsOk := by
  unfold delete_task
  cases hg : db.get i with
  | none => exact h
  | some t =>
    intro r hr
    exact h r (List.mem_of_mem_filter hr)

/-! ### Helper lemmas about pydantic validation -/

theorem TaskPatch.validatePatchFacts {raw : TaskPatchRaw} {q : TaskPatch}
    (hv : TaskPatch.validate raw = some q) :
    q.titleSet = raw.title.isSome ∧
    q.descriptionSet = raw.description.isSome ∧
    q.completedSet = raw.completed.isSome ∧
    q.createdAtSet = raw.created_at.isSome ∧
    (raw.title = some none → q.title = none) ∧
    (raw.description = some none → q.description = none) ∧
    (raw.created_at = some none → q.created_at = none) ∧
    raw.completed ≠ some none := by
  rcases raw with ⟨tt, d, c, ca⟩
  rcases tt with _ | (_ | tt) <;> rcases d with _ | (_ | d) <;>
    rcases c with _ | (_ | c) <;> rcases ca with _ | (_ | ca) <;>
    simp [TaskPatch.validate] at hv <;> simp_all <;>
    first
      | (obtain ⟨-, -, hv⟩ := hv ; subst hv ; simp)
      | (obtain ⟨-, hv⟩ := hv ; subst hv ; simp)
      | (subst hv ; simp)

theorem TaskCreate.validateCreateFacts {now : Timestamp} {raw : TaskCreateRaw}
    {p : TaskCreate} (hv : TaskCreate.validate now raw = some p) :
    raw.title ≠ none ∧ raw.title ≠ some none ∧
    (∀ s, raw.title = some (some s) → p.title = s) ∧
    (raw.description = none → p.description = none) ∧
    (raw.completed = none → p.completed = false) ∧
    (∀ b, raw.completed = some (some b) → p.completed = b) ∧
    (raw.created_at = none → p.created_at = now) ∧
    (∀ x, raw.created_at = some (some x) → p.created_at = x) ∧
    p.titleSet = raw.title.isSome ∧
    p.descriptionSet = raw.description.isSome ∧
    p.completedSet = raw.completed.isSome ∧
    p.createdAtSet = raw.created_at.isSome := by
  rcases raw with ⟨tt, d, c, ca⟩
  rcases tt with _ | (_ | tt) <;> rcases d with _ | (_ | d) <;>
    rcases c with _ | (_ | c) <;> rcases ca with _ | (_ | ca) <;>
    simp [TaskCreate.validate] at hv <;> simp_all <;>
    first
      | (obtain ⟨-, -, hv⟩ := hv ; subst hv ; simp)
      | (obtain ⟨-, hv⟩ := hv ; subst hv ; simp)

/-! ### Helper lemmas about LIKE matching -/

theorem likeMatch_pct (s : List Char) : likeMatch ['%'] s = true := by
  simp only [likeMatch]
  rw [if_pos trivial]
  rw [List.any_eq_true]
  refine ⟨[], ?_, rfl⟩
  rw [List.mem_tails]
  exact List.nil_suffix

theorem likeMatch_plain_pct {needle : List Char} (hw : noWild needle = true) :
    ∀ s : List Char, likeMatch (needle ++ ['%']) s = hasPrefixCh needle s := by
  induction needle with
  | nil =>
    intro s
    simp [hasPrefixCh, likeMatch_pct]
  | cons n ns ih =>
    intro s
    have hn : ¬(n = '%') ∧ ¬(n = '_') ∧ noWild ns = true := by
      simp [noWild] at hw ⊢
      exact ⟨hw.1.1, hw.1.2, fun c hc => (hw.2 c hc)⟩
    cases s with
    | nil => simp [likeMatch, hasPrefixCh, hn.1]
    | cons c cs =>
      simp [likeMatch, hasPrefixCh, hn.1, hn.2.1, ih hn.2.2 cs]
      tauto

theorem tails_any_prefix (needle : List Char) :
    ∀ s : List Char,
      s.tails.any (fun s2 => hasPrefixCh needle s2) = hasSubstrCh needle s := by
  intro s
  induction s with
  | nil => cases needle <;> simp [hasPrefixCh, hasSubstrCh, List.tails]
  | cons c cs ih => simp [List.tails, hasSubstrCh, ih]

theorem likeMatch_substr {needle : List Char} (hw : noWild needle = true) :
    ∀ s : List Char,
      likeMatch ('%' :: (needle ++ ['%'])) s = hasSubstrCh needle s := by
  intro s
  rw [show likeMatch ('%' :: (needle ++ ['%'])) s
      = s.tails.any (fun s2 => likeMatch (needle ++ ['%']) s2) by
    simp [likeMatch]]
  rw [show (fun s2 => likeMatch (needle ++ ['%']) s2)
      = (fun s2 => hasPrefixCh needle s2) from funext (likeMatch_plain_pct hw)]
  exact tails_any_prefix needle s

/-! ### Claim theorems -/

/-- C2: for every list request, an empty result set makes `list_tasks` fail
with a 404 carrying "The tasks list is empty.", and `list_tasks` never
returns an empty list. -/
theorem list_tasks_empty_is_notfound (db : Db) (offset limit : Nat)
    (title : String) :
    (list_query db offset limit title = [] →
      list_tasks db offset limit title
        = .error ⟨404, "The tasks list is empty."⟩) ∧
    (∀ r, list_tasks db offset limit title = .ok r → r ≠ []) := by
  constructor
  · intro h
    simp [list_tasks, h]
  · intro r hr hnil
    unfold list_tasks at hr
    by_cases h : (list_query db offset limit title).isEmpty
    · simp [h] at hr
    · simp [h] at hr
      rw [hr, hnil] at h
      simp at h

/-- Witness for C2 at the empty store. -/
theorem list_tasks_empty_is_notfound_witness :
    list_tasks ⟨[], 1⟩ 0 20 ""
      = .error ⟨404, "The tasks list is empty."⟩ :=
  (list_tasks_empty_is_notfound ⟨[], 1⟩ 0 20 "").1 rfl

/-- C8: a DELETE on an existing id acknowledges with ok, removes exactly that
row, and an immediately repeated DELETE on the same id fails with 404 leaving
the state unchanged; a DELETE on an absent id fails with 404 and leaves the
state unchanged. -/
theorem delete_task_semantics (db : Db) (i : Nat) :
    (∀ t, db.get i = some t →
      (delete_task db i).1 = .ok true ∧
      ((delete_task db i).2).get i = none ∧
      (∀ j, j ≠ i → ((delete_task db i).2).get j = db.get j) ∧
      delete_task ((delete_task db i).2) i
        = (.error taskNotFound, (delete_task db i).2)) ∧
    (db.get i = none → delete_task db i = (.error taskNotFound, db)) := by
  constructor
  · intro t ht
    have h1 : delete_task db i
        = (.ok true, ⟨db.rows.filter (fun r => r.id != i), db.nextId⟩) := by
      unfold delete_task
      rw [ht]
    have hget : (⟨db.rows.filter (fun r => r.id != i), db.nextId⟩ : Db).get i
        = none := find?_filter_ne_self db.rows i
    refine ⟨by rw [h1], by rw [h1]; exact hget, ?_, ?_⟩
    · intro j hj
      rw [h1]
      exact find?_filter_ne_other db.rows i j hj
    · rw [h1]
      unfold delete_task
      rw [hget]
  · intro h
    unfold delete_task
    rw [h]

/-- Witness for C8 at a one-row store. -/
theorem delete_task_semantics_witness :
    (delete_task ⟨[⟨1, some "Buy milk", some "2%", false, some 5⟩], 2⟩ 1).1
        = .ok true ∧
    ((delete_task ⟨[⟨1, some "Buy milk", some "2%", false, some 5⟩], 2⟩ 1).2).get 1
        = none ∧
    delete_task
        ((delete_task ⟨[⟨1, some "Buy milk", some "2%", false, some 5⟩], 2⟩ 1).2) 1
      = (.error taskNotFound,
         (delete_task ⟨[⟨1, some "Buy milk", some "2%", false, some 5⟩], 2⟩ 1).2) := by
  have h := (delete_task_semantics
      ⟨[⟨1, some "Buy milk", some "2%", false, some 5⟩], 2⟩ 1).1
      ⟨1, some "Buy milk", some "2%", false, some 5⟩ rfl
  exact ⟨h.1, h.2.1, h.2.2.2⟩

/-- C9: the id of a task is assigned at creation by the store (it is the
store's next key, whatever the payload) and is unchanged by PUT and PATCH:
neither input projection carries an id field, so the merged row keeps the id
of the loaded row — and when a PATCH commit is rejected by the NOT NULL
columns the store (hence the id) is unchanged altogether. -/
theorem id_immutable (db : Db) (i : Nat) (p : TaskCreate) (q : TaskPatch)
    (t : Task) (h : db.get i = some t) :
    ((update_task db i p).2).get i = some (t.applyCreate p) ∧
    (t.applyCreate p).id = t.id ∧
    (t.applyPatch q).id = t.id ∧
    ((t.applyPatch q).nullOk = true →
      ((patch_task db i q).2).get i = some (t.applyPatch q)) ∧
    ((t.applyPatch q).nullOk = false → (patch_task db i q).2 = db) ∧
    (∀ p2 : TaskCreate, ((create_task db p2).1).id = db.nextId) := by
  have hu : update_task db i p
      = (.ok (t.applyCreate p), db.setRow (t.applyCreate p)) := by
    unfold update_task
    rw [h]
  have hq : patch_task db i q
      = (if (t.applyPatch q).nullOk then
          (.ok (t.applyPatch q), db.setRow (t.applyPatch q))
         else (.integrityError, db)) := by
    unfold patch_task
    rw [h]
  refine ⟨?_, rfl, rfl, ?_, ?_, fun p2 => rfl⟩
  · rw [hu]
    exact Db.get_setRow h rfl
  · intro hok
    rw [hq, if_pos hok]
    exact Db.get_setRow h rfl
  · intro hbad
    rw [hq, if_neg (by simp [hbad])]

/-- Witness for C9 at a one-row store, exercising the PUT case and the two
PATCH commit branches. -/
theorem id_immutable_witness :
    ((update_task ⟨[⟨1, some "a", none, false, some 0⟩], 2⟩ 1
        ⟨"b", none, true, 7, true, false, true, true⟩).2).get 1
      = some ⟨1, some "b", none, true, some 7⟩ ∧
    ((patch_task ⟨[⟨1, some "a", none, false, some 0⟩], 2⟩ 1
        ⟨none, none, true, none, false, false, true, false⟩).2).get 1
      = some ⟨1, some "a", none, true, some 0⟩ ∧
    (patch_task ⟨[⟨1, some "a", none, false, some 0⟩], 2⟩ 1
        ⟨none, none, false, none, true, false, false, false⟩).2
      = ⟨[⟨1, some "a", none, false, some 0⟩], 2⟩ := by
  have h := id_immutable ⟨[⟨1, some "a", none, false, some 0⟩], 2⟩ 1
      ⟨"b", none, true, 7, true, false, true, true⟩
      ⟨none, none, true, none, false, false, true, false⟩
      ⟨1, some "a", none, false, some 0⟩ rfl
  have h2 := id_immutable ⟨[⟨1, some "a", none, false, some 0⟩], 2⟩ 1
      ⟨"b", none, true, 7, true, false, true, true⟩
      ⟨none, none, false, none, true, false, false, false⟩
      ⟨1, some "a", none, false, some 0⟩ rfl
  exact ⟨h.1, h.2.2.2.1 rfl, h2.2.2.2.2.1 rfl⟩

/-- C1: PUT on an existing id merges exactly the fields present in the
request body onto the stored row (fields omitted from the body are left
unchanged — exclude-unset semantics) and returns the updated row; PUT on an
absent id fails with 404 and leaves the store unchanged. -/
theorem update_task_exclude_unset_semantics (db : Db) (i : Nat)
    (p : TaskCreate) :
    (∀ t, db.get i = some t →
      (update_task db i p).1 = .ok (t.applyCreate p) ∧
      ((update_task db i p).2).get i = some (t.applyCreate p) ∧
      (p.titleSet = true → (t.applyCreate p).title = some p.title) ∧
      (p.titleSet = false → (t.applyCreate p).title = t.title) ∧
      (p.descriptionSet = true →
        (t.applyCreate p).description = p.description) ∧
      (p.descriptionSet = false →
        (t.applyCreate p).description = t.description) ∧
      (p.completedSet = true → (t.applyCreate p).completed = p.completed) ∧
      (p.completedSet = false → (t.applyCreate p).completed = t.completed) ∧
      (p.createdAtSet = true →
        (t.applyCreate p).created_at = some p.created_at) ∧
      (p.createdAtSet = false →
        (t.applyCreate p).created_at = t.created_at)) ∧
    (db.get i = none → update_task db i p = (.error taskNotFound, db)) := by
  constructor
  · intro t ht
    have hu : update_task db i p
        = (.ok (t.applyCreate p), db.setRow (t.applyCreate p)) := by
      unfold update_task
      rw [ht]
    refine ⟨by rw [hu], ?_, ?_, ?_, ?_, ?_, ?_, ?_, ?_, ?_⟩
    · rw [hu]
      exact Db.get_setRow ht rfl
    all_goals intro hs
    all_goals simp [Task.applyCreate, hs]
  · intro h
    unfold update_task
    rw [h]

/-- Witness for C1: PUT carrying only a title changes the title and keeps
description, completed and created_at; PUT on a missing id is a 404. -/
theorem update_task_exclude_unset_witness :
    (update_task ⟨[⟨1, some "Buy milk", some "2%", false, some 5⟩], 2⟩ 1
        ⟨"New", none, false, 0, true, false, false, false⟩).1
      = .ok ⟨1, some "New", some "2%", false, some 5⟩ ∧
    update_task ⟨[⟨1, some "Buy milk", some "2%", false, some 5⟩], 2⟩ 9
        ⟨"New", none, false, 0, true, false, false, false⟩
      = (.error taskNotFound,
         ⟨[⟨1, some "Buy milk", some "2%", false, some 5⟩], 2⟩) := by
  constructor
  · exact ((update_task_exclude_unset_semantics
      ⟨[⟨1, some "Buy milk", some "2%", false, some 5⟩], 2⟩ 1
      ⟨"New", none, false, 0, true, false, false, false⟩).1
      ⟨1, some "Buy milk", some "2%", false, some 5⟩ rfl).1
  · exact (update_task_exclude_unset_semantics
      ⟨[⟨1, some "Buy milk", some "2%", false, some 5⟩], 2⟩ 9
      ⟨"New", none, false, 0, true, false, false, false⟩).2 rfl

/-- C4: PATCH on an existing id applies only the fields explicitly set in
the payload (sparse merge) and, whenever the merged row respects the NOT
NULL columns, commits it and returns it; in particular on any stored row
satisfying those constraints a payload setting only `completed := true`
flips `completed`, keeps `title`, `description` and `created_at`, and is
persisted; a merged row violating the constraints is rejected at commit
with the store unchanged; PATCH on an absent id fails with 404 leaving the
store unchanged. -/
theorem patch_task_sparse_merge (db : Db) (i : Nat) (q : TaskPatch) :
    (∀ t, db.get i = some t →
      (q.titleSet = false → (t.applyPatch q).title = t.title) ∧
      (q.descriptionSet = false →
        (t.applyPatch q).description = t.description) ∧
      (q.completedSet = false → (t.applyPatch q).completed = t.completed) ∧
      (q.createdAtSet = false →
        (t.applyPatch q).created_at = t.created_at) ∧
      (q.completedSet = true → (t.applyPatch q).completed = q.completed) ∧
      ((t.applyPatch q).nullOk = true →
        (patch_task db i q).1 = .ok (t.applyPatch q) ∧
        ((patch_task db i q).2).get i = some (t.applyPatch q)) ∧
      ((t.applyPatch q).nullOk = false →
        patch_task db i q = (.integrityError, db)) ∧
      (t.nullOk = true → q.completedSet = true → q.titleSet = false →
        q.descriptionSet = false → q.createdAtSet = false →
        q.completed = true →
        t.applyPatch q = { t with completed := true } ∧
        (patch_task db i q).1 = .ok { t with completed := true } ∧
        ((patch_task db i q).2).get i
          = some { t with completed := true })) ∧
    (db.get i = none → patch_task db i q = (.httpError taskNotFound, db)) := by
  constructor
  · intro t ht
    have hm : patch_task db i q
        = (if (t.applyPatch q).nullOk then
            (.ok (t.applyPatch q), db.setRow (t.applyPatch q))
           else (.integrityError, db)) := by
      unfold patch_task
      rw [ht]
    refine ⟨?_, ?_, ?_, ?_, ?_, ?_, ?_, ?_⟩
    · intro hs
      simp [Task.applyPatch, hs]
    · intro hs
      simp [Task.applyPatch, hs]
    · intro hs
      simp [Task.applyPatch, hs]
    · intro hs
      simp [Task.applyPatch, hs]
    · intro hs
      simp [Task.applyPatch, hs]
    · intro hok
      rw [hm, if_pos hok]
      exact ⟨rfl, Db.get_setRow ht rfl⟩
    · intro hbad
      rw [hm, if_neg (by simp [hbad])]
    · intro hn h1 h2 h3 h4 h5
      have heq : t.applyPatch q = { t with completed := true } := by
        simp [Task.applyPatch, h1, h2, h3, h4, h5]
      have hok : (t.applyPatch q).nullOk = true := by
        rw [heq]
        exact hn
      have h6 : (patch_task db i q).1 = .ok (t.applyPatch q) ∧
          ((patch_task db i q).2).get i = some (t.applyPatch q) := by
        rw [hm, if_pos hok]
        exact ⟨rfl, Db.get_setRow ht rfl⟩
      exact ⟨heq, heq ▸ h6.1, heq ▸ h6.2⟩
  · intro h
    unfold patch_task
    rw [h]

/-- Witness for C4: PATCH `{completed:true}` on a stored row flips only
`completed` and persists; PATCH on a missing id is a 404. -/
theorem patch_task_sparse_merge_witness :
    (patch_task ⟨[⟨1, some "Buy milk", some "2%", false, some 5⟩], 2⟩ 1
        ⟨none, none, true, none, false, false, true, false⟩).1
      = .ok ⟨1, some "Buy milk", some "2%", true, some 5⟩ ∧
    patch_task ⟨[⟨1, some "Buy milk", some "2%", false, some 5⟩], 2⟩ 9
        ⟨none, none, true, none, false, false, true, false⟩
      = (.httpError taskNotFound,
         ⟨[⟨1, some "Buy milk", some "2%", false, some 5⟩], 2⟩) := by
  constructor
  · exact (((patch_task_sparse_merge
      ⟨[⟨1, some "Buy milk", some "2%", false, some 5⟩], 2⟩ 1
      ⟨none, none, true, none, false, false, true, false⟩).1
      ⟨1, some "Buy milk", some "2%", false, some 5⟩ rfl).2.2.2.2.2.2.2
      rfl rfl rfl rfl rfl rfl).2.1
  · exact (patch_task_sparse_merge
      ⟨[⟨1, some "Buy milk", some "2%", false, some 5⟩], 2⟩ 9
      ⟨none, none, true, none, false, false, true, false⟩).2 rfl

/-- C3 counterexample: with the filter string "_", `list_tasks` returns the
task titled "a", yet "_" is not a substring of "a" — the underscore acted as
a LIKE wildcard, so the result is not "exactly the case-insensitive
substring matches". -/
theorem list_filter_substring_cx :
    list_tasks ⟨[⟨1, some "a", none, false, some 0⟩], 2⟩ 0 20 "_"
      = .ok [⟨1, some "a", none, false, some 0⟩] ∧
    ciSubstr "_" "a" = false :=
  ⟨rfl, rfl⟩

/-- C3 (amended): with a non-empty filter free of LIKE wildcards, the rows
returned are exactly the tasks whose title contains the filter string as a
case-insensitive substring, with the filter applied to all stored rows
before the first `offset` matches are skipped and at most `limit` are kept;
with the empty filter no filtering is applied. -/
theorem list_filter_like_semantics (db : Db) (offset limit : Nat)
    (title : String) :
    (title ≠ "" → noWild (lowerStr title) = true →
      ∀ r, list_tasks db offset limit title = .ok r →
        r = (((db.rows.filter (fun t => match t.title with
                | some s => ciSubstr title s
                | none => false)).drop offset).take limit)) ∧
    (∀ r, list_tasks db offset limit "" = .ok r →
      r = ((db.rows.drop offset).take limit)) := by
  constructor
  · intro hne hw r hr
    have hfil : (fun t : Task => ilike t.title title)
        = (fun t : Task => match t.title with
            | some s => ciSubstr title s
            | none => false) := by
      funext t
      cases htt : t.title with
      | none => rfl
      | some s => exact likeMatch_substr hw (lowerStr s)
    unfold list_tasks list_query at hr
    rw [if_neg hne] at hr
    by_cases h : (((db.rows.filter
        (fun t => ilike t.title title)).drop offset).take limit).isEmpty
    · simp only [h, if_true] at hr
      cases hr
    · simp only [h, if_false] at hr
      have hr2 := Except.ok.inj hr
      rw [← hr2, hfil]
  · intro r hr
    unfold list_tasks list_query at hr
    rw [if_pos rfl] at hr
    by_cases h : (((db.rows).drop offset).take limit).isEmpty
    · simp only [h, if_true] at hr
      cases hr
    · simp only [h, if_false] at hr
      have hr2 := Except.ok.inj hr
      rw [← hr2]

/-- Witness for C3 at the spec's example: filtering "Buy milk"/"Walk dog"
with "MILK" returns exactly the substring matches, i.e. only "Buy milk". -/
theorem list_filter_like_semantics_witness :
    ([⟨1, some "Buy milk", none, false, some 0⟩] : List Task)
      = ((([(⟨1, some "Buy milk", none, false, some 0⟩ : Task),
            ⟨2, some "Walk dog", none, false, some 0⟩].filter
            (fun t => match t.title with
              | some s => ciSubstr "MILK" s
              | none => false)).drop 0).take 20) :=
  (list_filter_like_semantics
    ⟨[⟨1, some "Buy milk", none, false, some 0⟩,
      ⟨2, some "Walk dog", none, false, some 0⟩], 3⟩ 0 20 "MILK").1
    (by decide) (by decide) [⟨1, some "Buy milk", none, false, some 0⟩] rfl

/-- C5 counterexample: a create body that supplies `created_at` passes
validation (the field is inherited from BaseTask into TaskCreate) and the
supplied value 123, not the server clock 999, ends up on the created row. -/
theorem taskcreate_createdat_cx :
    TaskCreate.validate 999
        ⟨some (some "Buy milk"), none, none, some (some 123)⟩
      = some ⟨"Buy milk", none, false, 123, true, false, false, true⟩ ∧
    ((create_task ⟨[], 1⟩
        ⟨"Buy milk", none, false, 123, true, false, false, true⟩).1).created_at
      = some 123 ∧
    (123 : Timestamp) ≠ 999 :=
  ⟨rfl, rfl, by decide⟩

/-- C5 (amended): TaskCreate carries `title` (required, not nullable),
`description` (optional), `completed` (optional, default false) and
`created_at` (optional, defaulting to the server clock when omitted); it has
no id field, and the store assigns the id of a created task regardless of
the payload. -/
theorem taskcreate_projection_fields (now : Timestamp) (raw : TaskCreateRaw)
    (p : TaskCreate) (hv : TaskCreate.validate now raw = some p) :
    raw.title ≠ none ∧ raw.title ≠ some none ∧
    (∀ s, raw.title = some (some s) → p.title = s) ∧
    (raw.description = none → p.description = none) ∧
    (raw.completed = none → p.completed = false) ∧
    (raw.created_at = none → p.created_at = now) ∧
    (∀ x, raw.created_at = some (some x) → p.created_at = x) ∧
    (∀ db : Db, ((create_task db p).1).id = db.nextId) := by
  have h := TaskCreate.validateCreateFacts hv
  exact ⟨h.1, h.2.1, h.2.2.1, h.2.2.2.1, h.2.2.2.2.1, h.2.2.2.2.2.2.1,
    h.2.2.2.2.2.2.2.1, fun db => rfl⟩

/-- Witness for C5: from a body holding only a title, validation defaults
`created_at` to the clock and the created row's id is the store's next. -/
theorem taskcreate_projection_fields_witness :
    (⟨"T", none, false, 999, true, false, false, false⟩
        : TaskCreate).created_at = 999 ∧
    ((create_task ⟨[], 1⟩
        ⟨"T", none, false, 999, true, false, false, false⟩).1).id = 1 := by
  have h := taskcreate_projection_fields 999
      ⟨some (some "T"), none, none, none⟩
      ⟨"T", none, false, 999, true, false, false, false⟩ rfl
  exact ⟨h.2.2.2.2.2.1 rfl, h.2.2.2.2.2.2.2 ⟨[], 1⟩⟩

/-- C6 counterexample: a PATCH body carrying an explicit null for
`completed` is rejected by validation (`completed : bool` is not Optional),
contradicting "explicitly passing null for any of these four fields is
accepted". -/
theorem taskpatch_completed_null_cx :
    TaskPatch.validate ⟨none, none, some none, none⟩ = none :=
  rfl

/-- C6 (amended): in TaskPatch `title`, `description` and `created_at` are
omittable and nullable, and `completed` is omittable but not nullable: a
body validates exactly when the title/description length bounds hold and
`completed` is not an explicit null; the fields-set flags record exactly the
fields present in the body (only those are applied by the merge). -/
theorem taskpatch_validation_semantics (raw : TaskPatchRaw) :
    ((TaskPatch.validate raw).isSome
      ↔ (titleOkP raw = true ∧ descOkP raw = true ∧
         raw.completed ≠ some none)) ∧
    (raw.completed = some none → TaskPatch.validate raw = none) ∧
    (∀ q, TaskPatch.validate raw = some q →
      q.titleSet = raw.title.isSome ∧
      q.descriptionSet = raw.description.isSome ∧
      q.completedSet = raw.completed.isSome ∧
      q.createdAtSet = raw.created_at.isSome ∧
      (raw.title = some none → q.title = none) ∧
      (raw.description = some none → q.description = none) ∧
      (raw.created_at = some none → q.created_at = none)) := by
  refine ⟨?_, ?_, ?_⟩
  · rcases raw with ⟨tt, d, c, ca⟩
    rcases tt with _ | (_ | tt) <;> rcases d with _ | (_ | d) <;>
      rcases c with _ | (_ | c) <;> rcases ca with _ | (_ | ca) <;>
      simp [TaskPatch.validate, titleOkP, descOkP] <;>
      (try split_ifs) <;> simp_all
  · intro h
    cases hem : TaskPatch.validate raw with
    | none => rfl
    | some q => exact absurd h (TaskPatch.validatePatchFacts hem).2.2.2.2.2.2.2
  · intro q hq
    have h := TaskPatch.validatePatchFacts hq
    exact ⟨h.1, h.2.1, h.2.2.1, h.2.2.2.1, h.2.2.2.2.1, h.2.2.2.2.2.1,
      h.2.2.2.2.2.2.1⟩

/-- Witness for C6: a body with explicit nulls for title, description and
created_at and a boolean for completed validates, and its flags mark all
four fields as present. -/
theorem taskpatch_validation_semantics_witness :
    (TaskPatch.validate ⟨some none, some none, some (some true), some none⟩
      ).isSome = true ∧
    (⟨none, none, true, none, true, true, true, true⟩ : TaskPatch).titleSet
      = true ∧
    (⟨none, none, true, none, true, true, true, true⟩ : TaskPatch).title
      = none := by
  have h := taskpatch_validation_semantics
      ⟨some none, some none, some (some true), some none⟩
  have h3 := h.2.2 ⟨none, none, true, none, true, true, true, true⟩ rfl
  exact ⟨h.1.mpr ⟨rfl, rfl, by simp⟩, h3.1, h3.2.2.2.2.1 rfl⟩

/-- C7 counterexample: creating from a payload that supplies
`created_at = 123` at server time 999 and fetching the returned id yields
`created_at = 123` — not a server-assigned timestamp. -/
theorem create_get_createdat_cx :
    TaskCreate.validate 999
        ⟨some (some "Buy milk"), some (some "2%"), some (some false),
         some (some 123)⟩
      = some ⟨"Buy milk", some "2%", false, 123, true, true, true, true⟩ ∧
    task_details
        (create_task ⟨[], 1⟩
          ⟨"Buy milk", some "2%", false, 123, true, true, true, true⟩).2 1
      = .ok ⟨1, some "Buy milk", some "2%", false, some 123⟩ ∧
    some (123 : Timestamp) ≠ some (999 : Timestamp) :=
  ⟨rfl, rfl, by decide⟩

/-- C7 (amended): creating a task from a validated payload and then getting
it by the returned id yields that task, whose title/description/completed
are the payload's and whose id is store-assigned; its created_at is the
server clock when the payload omitted the field, and the payload's value
when supplied. -/
theorem create_then_get_roundtrip (db : Db) (hwf : db.Wf) (now : Timestamp)
    (raw : TaskCreateRaw) (p : TaskCreate)
    (hv : TaskCreate.validate now raw = some p) :
    task_details (create_task db p).2 ((create_task db p).1).id
      = .ok (create_task db p).1 ∧
    ((create_task db p).1).title = some p.title ∧
    ((create_task db p).1).description = p.description ∧
    ((create_task db p).1).completed = p.completed ∧
    ((create_task db p).1).id = db.nextId ∧
    (raw.created_at = none → ((create_task db p).1).created_at = some now) ∧
    (∀ x, raw.created_at = some (some x) →
      ((create_task db p).1).created_at = some x) := by
  have h := TaskCreate.validateCreateFacts hv
  have hget : ((create_task db p).2).get ((create_task db p).1).id
      = some (create_task db p).1 :=
    find?_append_last db.rows
      ⟨db.nextId, some p.title, p.description, p.completed,
        some p.created_at⟩
      (fun r hr => Nat.ne_of_lt (hwf r hr))
  refine ⟨?_, rfl, rfl, rfl, rfl, ?_, ?_⟩
  · unfold task_details
    rw [hget]
  · intro hca
    have := h.2.2.2.2.2.2.1 hca
    simp [create_task, this]
  · intro x hca
    have := h.2.2.2.2.2.2.2.1 x hca
    simp [create_task, this]

/-- Witness for C7 at the spec's example payload (created_at omitted). -/
theorem create_then_get_roundtrip_witness :
    task_details
        (create_task ⟨[], 1⟩
          ⟨"Buy milk", some "2%", false, 999, true, true, true, false⟩).2
        ((create_task ⟨[], 1⟩
          ⟨"Buy milk", some "2%", false, 999, true, true, true, false⟩).1).id
      = .ok (create_task ⟨[], 1⟩
          ⟨"Buy milk", some "2%", false, 999, true, true, true, false⟩).1 ∧
    ((create_task ⟨[], 1⟩
        ⟨"Buy milk", some "2%", false, 999, true, true, true,
          false⟩).1).created_at = some 999 := by
  have h := create_then_get_roundtrip ⟨[], 1⟩
      (by intro t ht; simp at ht) 999
      ⟨some (some "Buy milk"), some (some "2%"), some (some false), none⟩
      ⟨"Buy milk", some "2%", false, 999, true, true, true, false⟩ rfl
  exact ⟨h.1, h.2.2.2.2.2.1 rfl⟩

/-- C10 counterexample: PATCH `{title:null}` validates (first conjunct:
the null is treated as present, with the set-flag raised) and the merge
assigns it onto the in-memory row, but the commit's UPDATE is rejected by
the NOT NULL title column: the request ends in the unhandled IntegrityError
and the persisted row still carries its old, non-null title — the null is
never persisted. -/
theorem patch_null_title_cx :
    TaskPatch.validate ⟨some none, none, none, none⟩
      = some ⟨none, none, false, none, true, false, false, false⟩ ∧
    patch_task ⟨[⟨1, some "Buy milk", some "2%", false, some 5⟩], 2⟩ 1
        ⟨none, none, false, none, true, false, false, false⟩
      = (.integrityError,
         ⟨[⟨1, some "Buy milk", some "2%", false, some 5⟩], 2⟩) ∧
    ((patch_task ⟨[⟨1, some "Buy milk", some "2%", false, some 5⟩], 2⟩ 1
        ⟨none, none, false, none, true, false, false, false⟩).2).get 1
      = some ⟨1, some "Buy milk", some "2%", false, some 5⟩ :=
  ⟨rfl, rfl, rfl⟩

/-- C10 (amended): a PATCH body explicitly setting `title` to null is
accepted by validation, treated as present (not omitted), and assigned onto
the in-memory row without any re-check of the required-title pydantic
constraint — but the commit then violates the NOT NULL title column, the
IntegrityError escapes the handler, and the stored task is unchanged: a
null title is never persisted.  An explicit null for `description` (a
nullable column) is merged and persisted. -/
theorem patch_null_title_semantics (db : Db) (i : Nat) (raw : TaskPatchRaw)
    (q : TaskPatch) (hv : TaskPatch.validate raw = some q) :
    (raw.title = some none → q.title = none ∧ q.titleSet = true) ∧
    (∀ t, db.get i = some t →
      (q.titleSet = true → q.title = none →
        (t.applyPatch q).title = none ∧
        patch_task db i q = (.integrityError, db)) ∧
      (t.nullOk = true → q.titleSet = false → q.createdAtSet = false →
        q.descriptionSet = true → q.description = none →
        (patch_task db i q).1 = .ok (t.applyPatch q) ∧
        (t.applyPatch q).description = none ∧
        ((patch_task db i q).2).get i = some (t.applyPatch q))) := by
  have hvf := TaskPatch.validatePatchFacts hv
  constructor
  · intro hnull
    refine ⟨hvf.2.2.2.2.1 hnull, ?_⟩
    rw [hvf.1, hnull]
    rfl
  · intro t ht
    have hm : patch_task db i q
        = (if (t.applyPatch q).nullOk then
            (.ok (t.applyPatch q), db.setRow (t.applyPatch q))
           else (.integrityError, db)) := by
      unfold patch_task
      rw [ht]
    constructor
    · intro hset hnone
      have htl : (t.applyPatch q).title = none := by
        simp [Task.applyPatch, hset, hnone]
      refine ⟨htl, ?_⟩
      rw [hm, if_neg (by simp [Task.nullOk, htl])]
    · intro hn h1 h2 h3 h4
      have htl : (t.applyPatch q).title = t.title := by
        simp [Task.applyPatch, h1]
      have hca : (t.applyPatch q).created_at = t.created_at := by
        simp [Task.applyPatch, h2]
      have hok : (t.applyPatch q).nullOk = true := by
        simp [Task.nullOk] at hn
        simp [Task.nullOk, htl, hca, hn.1, hn.2]
      refine ⟨?_, ?_, ?_⟩
      · rw [hm, if_pos hok]
      · simp [Task.applyPatch, h3, h4]
      · rw [hm, if_pos hok]
        exact Db.get_setRow ht rfl

/-- Witness for C10: PATCH `{title:null}` leaves the store unchanged via the
IntegrityError path, while PATCH `{description:null}` persists the null
description. -/
theorem patch_null_title_semantics_witness :
    patch_task ⟨[⟨1, some "Buy milk", some "2%", false, some 5⟩], 2⟩ 1
        ⟨none, none, false, none, true, false, false, false⟩
      = (.integrityError,
         ⟨[⟨1, some "Buy milk", some "2%", false, some 5⟩], 2⟩) ∧
    ((patch_task ⟨[⟨1, some "Buy milk", some "2%", false, some 5⟩], 2⟩ 1
        ⟨none, none, false, none, false, true, false, false⟩).2).get 1
      = some ⟨1, some "Buy milk", none, false, some 5⟩ := by
  have h1 := patch_null_title_semantics
      ⟨[⟨1, some "Buy milk", some "2%", false, some 5⟩], 2⟩ 1
      ⟨some none, none, none, none⟩
      ⟨none, none, false, none, true, false, false, false⟩ rfl
  have h2 := patch_null_title_semantics
      ⟨[⟨1, some "Buy milk", some "2%", false, some 5⟩], 2⟩ 1
      ⟨none, some none, none, none⟩
      ⟨none, none, false, none, false, true, false, false⟩ rfl
  exact ⟨((h1.2 ⟨1, some "Buy milk", some "2%", false, some 5⟩ rfl).1
      rfl rfl).2,
    ((h2.2 ⟨1, some "Buy milk", some "2%", false, some 5⟩ rfl).2
      rfl rfl rfl rfl rfl).2.2⟩

end TaskApi
